import Mathlib

/-!
# Verification of the speedtest dashboard's data-loading pipeline

Shallow embedding of `src/dashboard/app/data_loader.py` (the Netzbremse
speedtest dashboard).  Python values parsed from JSON are modelled by `JVal`
(numbers as exact rationals), Python exceptions by `PyErr`, fallible Python
code by `Except PyErr`, pandas DataFrames by `DFrame` (an explicit column
list plus a list of rows), and the filesystem seen by the loader by `FS`.
Timestamps are modelled as integers (milliseconds since the Unix epoch, the
instant denoted by the `datetime` values the code constructs).
-/

/-- A JSON value as produced by Python's `json.load`.  Numbers are modelled
as exact rationals (Python ints and floats are not distinguished; the
arithmetic the loader performs on them is division and identity). -/
inductive JVal where
  | null
  | bool (b : Bool)
  | num (q : Rat)
  | str (s : String)
  | arr (elems : List JVal)
  | obj (entries : List (String × JVal))

/-- The Python exception classes that can arise in the loader. -/
inductive PyErr where
  | attributeError
  | typeError
  | keyError
  | valueError
  | osError
  | jsonDecodeError
  | unicodeDecodeError
deriving DecidableEq, Repr

/-- Lookup in a Python dict built by `json.load`: with duplicate keys in the
JSON text the last occurrence wins, so lookup prefers later entries. -/
def jlookup (entries : List (String × JVal)) (key : String) : Option JVal :=
  match entries with
  | [] => none
  | (k, v) :: rest =>
    match jlookup rest key with
    | some w => some w
    | none => if k = key then some v else none

/-- Python `dict.get(key, default)`. -/
def jget (entries : List (String × JVal)) (key : String) (default : JVal) : JVal :=
  (jlookup entries key).getD default

/-- Python truthiness of a JSON-derived value: `None`, `False`, `0`, `""`,
`[]` and `{}` are falsy, everything else is truthy. -/
def truthy : JVal → Bool
  | .null => false
  | .bool b => b
  | .num q => !(q = 0 : Bool)
  | .str s => !(s = "" : Bool)
  | .arr elems => !elems.isEmpty
  | .obj entries => !entries.isEmpty

/-! ## Calendar arithmetic (the semantics of `datetime.fromisoformat`)

`parse_timestamp_from_filename` builds an ISO string and hands it to
`datetime.fromisoformat`, which validates the calendar fields and otherwise
raises `ValueError` (caught by the function, which then returns `None`).
The resulting aware UTC datetime is modelled as its epoch timestamp in
milliseconds, via the standard civil-calendar day-count algorithm. -/

/-- Gregorian leap year rule. -/
def isLeapYear (y : Int) : Bool :=
  y % 4 = 0 && (!(y % 100 = 0 : Bool) || y % 400 = 0)

/-- Number of days in a month of the proleptic Gregorian calendar. -/
def daysInMonth (y m : Int) : Int :=
  if m = 2 then (if isLeapYear y then 29 else 28)
  else if m = 4 || m = 6 || m = 9 || m = 11 then 30
  else 31

/-- Days from 1970-01-01 to the civil date `y-m-d` (standard
days-from-civil algorithm, floor divisions). -/
def daysFromCivil (y m d : Int) : Int :=
  let y' := if m ≤ 2 then y - 1 else y
  let era := Int.fdiv y' 400
  let yoe := y' - era * 400
  let mp := if m > 2 then m - 3 else m + 9
  let doy := Int.fdiv (153 * mp + 2) 5 + d - 1
  let doe := yoe * 365 + Int.fdiv yoe 4 - Int.fdiv yoe 100 + doy
  era * 146097 + doe - 719468

/-- The validation performed by `datetime(...)` / `datetime.fromisoformat`:
year 1..9999, month 1..12, day within the month, hour 0..23,
minute and second 0..59. -/
def validDatetime (y mo d h mi s : Int) : Bool :=
  1 ≤ y && y ≤ 9999 && 1 ≤ mo && mo ≤ 12 && 1 ≤ d && d ≤ daysInMonth y mo
    && 0 ≤ h && h ≤ 23 && 0 ≤ mi && mi ≤ 59 && 0 ≤ s && s ≤ 59

/-- Milliseconds since the Unix epoch of the UTC instant `y-mo-d h:mi:s.ms`. -/
def epochMillis (y mo d h mi s ms : Int) : Int :=
  daysFromCivil y mo d * 86400000 + h * 3600000 + mi * 60000 + s * 1000 + ms

/-! ## Filename timestamp parser (`parse_timestamp_from_filename`) -/

/-- Numeric value of a decimal digit character. -/
def digitVal (c : Char) : Int := Int.ofNat c.toNat - 48

/-- Two decimal digit characters as a number. -/
def dig2 (a b : Char) : Int := 10 * digitVal a + digitVal b

/-- Three decimal digit characters as a number. -/
def dig3 (a b c : Char) : Int := 100 * digitVal a + 10 * digitVal b + digitVal c

/-- Four decimal digit characters as a number. -/
def dig4 (a b c d : Char) : Int :=
  1000 * digitVal a + 100 * digitVal b + 10 * digitVal c + digitVal d

/-- The seventeen character positions that the fixed-width regex pattern
`speedtest-(\d{4}-\d{2}-\d{2}T\d{2}-\d{2}-\d{2}-\d{3}Z)\.json` captures. -/
structure ShapeFields where
  y1 : Char
  y2 : Char
  y3 : Char
  y4 : Char
  mo1 : Char
  mo2 : Char
  d1 : Char
  d2 : Char
  h1 : Char
  h2 : Char
  mi1 : Char
  mi2 : Char
  s1 : Char
  s2 : Char
  ms1 : Char
  ms2 : Char
  ms3 : Char

/-- Destructure a character list against the literal template
`speedtest-` y₁y₂y₃y₄ `-` mo₁mo₂ `-` d₁d₂ `T` h₁h₂ `-` mi₁mi₂ `-` s₁s₂ `-`
ms₁ms₂ms₃ `Z.json` ++ anything.  Every class of the regex pattern has a
fixed width, so matching the pattern as a prefix is exactly this
destructuring (the digit classes are checked separately). -/
def splitShape : List Char → Option ShapeFields
  | 's' :: 'p' :: 'e' :: 'e' :: 'd' :: 't' :: 'e' :: 's' :: 't' :: '-' ::
    y1 :: y2 :: y3 :: y4 :: '-' :: mo1 :: mo2 :: '-' :: d1 :: d2 :: 'T' ::
    h1 :: h2 :: '-' :: mi1 :: mi2 :: '-' :: s1 :: s2 :: '-' ::
    ms1 :: ms2 :: ms3 :: 'Z' :: '.' :: 'j' :: 's' :: 'o' :: 'n' :: _rest =>
    some ⟨y1, y2, y3, y4, mo1, mo2, d1, d2, h1, h2, mi1, mi2, s1, s2, ms1, ms2, ms3⟩
  | _ => none

/-- Are all seventeen captured positions decimal digits (the `\d` classes
of the pattern)? -/
def digitsOk (f : ShapeFields) : Bool :=
  f.y1.isDigit && f.y2.isDigit && f.y3.isDigit && f.y4.isDigit
    && f.mo1.isDigit && f.mo2.isDigit && f.d1.isDigit && f.d2.isDigit
    && f.h1.isDigit && f.h2.isDigit && f.mi1.isDigit && f.mi2.isDigit
    && f.s1.isDigit && f.s2.isDigit && f.ms1.isDigit && f.ms2.isDigit && f.ms3.isDigit

/-- `parse_timestamp_from_filename` (data_loader.py lines 73-105).

The Python code applies `re.match` with pattern
`speedtest-(\d{4}-\d{2}-\d{2}T\d{2}-\d{2}-\d{2}-\d{3}Z)\.json`.
`re.match` anchors only at the START of the string (it is not
`re.fullmatch`), so the pattern is matched as a prefix and any trailing
characters after `.json` are accepted.  On a match, the group is
re-assembled into an ISO string and passed to `datetime.fromisoformat`,
whose calendar validation failure (`ValueError`) is caught and turned into
`None`.  The result is the decoded UTC instant in epoch milliseconds. -/
def parse_timestamp_from_filename (filename : String) : Option Int :=
  match splitShape filename.data with
  | none => none
  | some f =>
    if digitsOk f then
      let y := dig4 f.y1 f.y2 f.y3 f.y4
      let mo := dig2 f.mo1 f.mo2
      let d := dig2 f.d1 f.d2
      let h := dig2 f.h1 f.h2
      let mi := dig2 f.mi1 f.mi2
      let s := dig2 f.s1 f.s2
      let ms := dig3 f.ms1 f.ms2 f.ms3
      if validDatetime y mo d h mi s then some (epochMillis y mo d h mi s ms)
      else none
    else none

/-- Follows the spec's words (section 4.1 / claim C2): the filename shape
`speedtest-<YYYY-MM-DD>T<HH>-<MM>-<SS>-<mmm>Z.json` — the literal template
with decimal digits in the date/time positions — read as a PREFIX of the
filename.  Used only to state claims about which filenames the parser
accepts. -/
def matchesSpecShape (filename : String) : Bool :=
  match splitShape filename.data with
  | none => false
  | some f => digitsOk f

/-! ## Record extractor (`load_single_file`) -/

/-- One measurement record, as built by `load_single_file` (lines 131-141),
and also the row type of DataFrames in the pipeline.  Fields that a given
row's underlying dict may lack are `Option`s; `source_file` is an `Option`
so that dropping the column can clear it. -/
structure Row where
  timestamp : Int
  source_file : Option String
  sessionID : Option JVal
  endpoint : Option JVal
  download : Option JVal
  upload : Option JVal
  latency : Option JVal
  jitter : Option JVal
  downLoadedLatency : Option JVal
  downLoadedJitter : Option JVal
  upLoadedLatency : Option JVal
  upLoadedJitter : Option JVal

/-- The keys of the `METRICS` table (lines 29-70), in dict insertion order. -/
def metricNames : List String :=
  ["download", "upload", "latency", "jitter",
   "downLoadedLatency", "downLoadedJitter", "upLoadedLatency", "upLoadedJitter"]

/-- Access a row's metric field by its `METRICS` key. -/
def Row.metric (r : Row) : String → Option JVal
  | "download" => r.download
  | "upload" => r.upload
  | "latency" => r.latency
  | "jitter" => r.jitter
  | "downLoadedLatency" => r.downLoadedLatency
  | "downLoadedJitter" => r.downLoadedJitter
  | "upLoadedLatency" => r.upLoadedLatency
  | "upLoadedJitter" => r.upLoadedJitter
  | _ => none

/-- What the loader can find at a path when it opens and `json.load`s it.
The file system is modelled at the granularity of parse outcomes, since
`open`/`json.load` are library calls: the file may be missing or unreadable
(`OSError`), its bytes may not decode as text (`UnicodeDecodeError`), its
text may not be JSON (`json.JSONDecodeError`), or it parses to a `JVal`. -/
inductive FileContent where
  | absent
  | unreadable
  | undecodable
  | malformed
  | parsed (j : JVal)

/-- `open(filepath)` + `json.load(f)` (lines 115-116): the exception each
file state raises, or the parsed document. -/
def readJson : FileContent → Except PyErr JVal
  | .absent => .error .osError
  | .unreadable => .error .osError
  | .undecodable => .error .unicodeDecodeError
  | .malformed => .error .jsonDecodeError
  | .parsed j => .ok j

/-- Is `pat` a contiguous substring of `s` (Python `str.__contains__`)? -/
def strContains (s pat : List Char) : Bool :=
  pat.isPrefixOf s || match s with
    | [] => false
    | _ :: rest => strContains rest pat

/-- Python `key in container` for a JSON-derived value: dict key test, list
element test, substring test for strings; `in` on a number, boolean or
`None` raises `TypeError`. -/
def pyContains (container : JVal) (key : String) : Except PyErr Bool :=
  match container with
  | .obj entries => .ok (entries.any (fun p => p.1 == key))
  | .arr elems => .ok (elems.any (fun v => match v with
      | .str s => s == key
      | _ => false))
  | .str s => .ok (strContains s.data key.data)
  | _ => .error .typeError

/-- Python `container[key]` with a string key: dict indexing (`KeyError`
if missing); on a list, string or other value a string index raises
`TypeError`. -/
def pyIndex (container : JVal) (key : String) : Except PyErr JVal :=
  match container with
  | .obj entries =>
    match jlookup entries key with
    | some v => .ok v
    | none => .error .keyError
  | _ => .error .typeError

/-- The `METRICS` conversion for `download`/`upload`: `lambda x: x / 1_000_000`.
Division is defined for numbers (and Python booleans, which are ints);
other values raise `TypeError`. -/
def convertRate (v : JVal) : Except PyErr JVal :=
  match v with
  | .num q => .ok (.num (q / 1000000))
  | .bool b => .ok (.num ((if b then (1 : Rat) else 0) / 1000000))
  | _ => .error .typeError

/-- The `METRICS` conversion for the latency/jitter metrics: `lambda x: x`. -/
def convertId (v : JVal) : Except PyErr JVal := .ok v

/-- One iteration of the metrics loop (lines 138-140):
`if key in data["result"]: record[key] = config["convert"](data["result"][key])`. -/
def getConvertedMetric (result : JVal) (key : String)
    (conv : JVal → Except PyErr JVal) : Except PyErr (Option JVal) :=
  match pyContains result key with
  | .error e => .error e
  | .ok false => .ok none
  | .ok true =>
    match pyIndex result key with
    | .error e => .error e
    | .ok v =>
      match conv v with
      | .error e => .error e
      | .ok c => .ok (some c)

/-- The metric fields accumulated by the loop over `METRICS` (lines 138-140). -/
structure MetricFields where
  download : Option JVal
  upload : Option JVal
  latency : Option JVal
  jitter : Option JVal
  downLoadedLatency : Option JVal
  downLoadedJitter : Option JVal
  upLoadedLatency : Option JVal
  upLoadedJitter : Option JVal

/-- The loop `for key, config in METRICS.items()` (lines 138-140), in dict
insertion order; the first exception aborts the loop. -/
def buildMetrics (result : JVal) : Except PyErr MetricFields :=
  match getConvertedMetric result "download" convertRate with
  | .error e => .error e
  | .ok dl =>
  match getConvertedMetric result "upload" convertRate with
  | .error e => .error e
  | .ok ul =>
  match getConvertedMetric result "latency" convertId with
  | .error e => .error e
  | .ok la =>
  match getConvertedMetric result "jitter" convertId with
  | .error e => .error e
  | .ok ji =>
  match getConvertedMetric result "downLoadedLatency" convertId with
  | .error e => .error e
  | .ok dll =>
  match getConvertedMetric result "downLoadedJitter" convertId with
  | .error e => .error e
  | .ok dlj =>
  match getConvertedMetric result "upLoadedLatency" convertId with
  | .error e => .error e
  | .ok ull =>
  match getConvertedMetric result "upLoadedJitter" convertId with
  | .error e => .error e
  | .ok ulj => .ok ⟨dl, ul, la, ji, dll, dlj, ull, ulj⟩

/-- Lines 119-141, applied to the parsed JSON document.  A non-dict
document (list, string, number, boolean or null) has no `.get` method, so
`data.get("success", False)` on line 119 raises `AttributeError`. -/
def extractRecord (filename : String) (data : JVal) : Except PyErr (Option Row) :=
  match data with
  | .obj entries =>
    if !truthy (jget entries "success" (.bool false)) then .ok none
    else if !(jlookup entries "result").isSome then .ok none
    else
      match parse_timestamp_from_filename filename with
      | none => .ok none
      | some ts =>
        match buildMetrics ((jlookup entries "result").getD .null) with
        | .error e => .error e
        | .ok m => .ok (some
            { timestamp := ts
              source_file := some filename
              sessionID := some (jget entries "sessionID" .null)
              endpoint := some (jget entries "endpoint" .null)
              download := m.download
              upload := m.upload
              latency := m.latency
              jitter := m.jitter
              downLoadedLatency := m.downLoadedLatency
              downLoadedJitter := m.downLoadedJitter
              upLoadedLatency := m.upLoadedLatency
              upLoadedJitter := m.upLoadedJitter })
  | _ => .error .attributeError

/-- The body of `load_single_file`'s `try:` block (lines 114-142): open and
parse the file, then validate and convert the document. -/
def load_single_file_body (filename : String) (content : FileContent) :
    Except PyErr (Option Row) :=
  match readJson content with
  | .error e => .error e
  | .ok data => extractRecord filename data

/-- Is the exception one of the classes named in the `except` clause on
line 143: `(json.JSONDecodeError, KeyError, TypeError, OSError)`? -/
def caughtByLoad : PyErr → Bool
  | .jsonDecodeError => true
  | .keyError => true
  | .typeError => true
  | .osError => true
  | _ => false

/-- `load_single_file` (lines 108-144): the `try:` body, with the
exceptions listed on line 143 turned into `None`; any other exception
propagates to the caller. -/
def load_single_file (filename : String) (content : FileContent) :
    Except PyErr (Option Row) :=
  match load_single_file_body filename content with
  | .error e => if caughtByLoad e then .ok none else .error e
  | .ok v => .ok v

/-! ## DataFrames -/

/-- A pandas DataFrame: the list of column labels together with the rows.
Column membership follows pandas (a column exists in the frame or not);
a row field that is `none` while its column exists models a missing value
(`NaN`). -/
structure DFrame where
  cols : List String
  rows : List Row

/-- `pd.DataFrame()`: no columns, no rows. -/
def emptyDF : DFrame := ⟨[], []⟩

/-- The keys of the dict a record was built from (lines 131-141):
`timestamp`, `source_file`, `sessionID` and `endpoint` are always set
(`dict.get` stores `None` when absent), metric keys only when present in
the payload. -/
def rowKeys (r : Row) : List String :=
  ["timestamp", "source_file", "sessionID", "endpoint"]
    ++ metricNames.filter (fun k => (r.metric k).isSome)

/-- Column labels of `pd.DataFrame(records)`: the union of the records'
keys, in order of first appearance. -/
def unionKeys (records : List Row) : List String :=
  records.foldl (fun acc r => acc ++ (rowKeys r).filter (fun k => !acc.contains k)) []

/-- `pd.DataFrame(records)`. -/
def mkDF (records : List Row) : DFrame := ⟨unionKeys records, records⟩

/-- `pd.concat([a, b], ignore_index=True)`: rows appended, columns the
ordered union. -/
def dfConcat (a b : DFrame) : DFrame :=
  ⟨a.cols ++ b.cols.filter (fun c => !a.cols.contains c), a.rows ++ b.rows⟩

/-- Row comparison used by `sort_values("timestamp", ascending=True)`. -/
def rowLE (a b : Row) : Prop := a.timestamp ≤ b.timestamp

instance : DecidableRel rowLE := fun a b => inferInstanceAs (Decidable (a.timestamp ≤ b.timestamp))

instance : IsTotal Row rowLE := ⟨fun a b => Int.le_total a.timestamp b.timestamp⟩

instance : IsTrans Row rowLE := ⟨fun _ _ _ h1 h2 => Int.le_trans h1 h2⟩

/-- `df.sort_values("timestamp", ascending=True)` (a deterministic
comparison sort on the timestamp column; modelled as a stable sort). -/
def sortDF (d : DFrame) : DFrame := ⟨d.cols, d.rows.insertionSort rowLE⟩

/-- `df.drop(columns=["source_file"])`: pandas raises `KeyError` when the
column is absent; otherwise the column label and the per-row values are
removed. -/
def dfDropSource (d : DFrame) : Except PyErr DFrame :=
  if d.cols.contains "source_file" then
    .ok ⟨d.cols.filter (fun c => !(c == "source_file")),
         d.rows.map (fun r => { r with source_file := none })⟩
  else .error .keyError

/-! ## Parallel file loader (`_load_json_files_parallel`) -/

/-- `_load_json_files_parallel` (lines 147-159): every path is submitted to
the pool and `load_single_file` runs for each; records of failed extractions
are dropped.  An exception raised inside a worker is re-raised by
`future.result()` and propagates.  Completion order is scheduler dependent;
the model keeps submission order (the caller restores order by an explicit
sort). -/
def load_json_files (files : List (String × FileContent)) :
    Except PyErr (List Row) :=
  match files with
  | [] => .ok []
  | (n, c) :: rest =>
    match load_single_file n c with
    | .error e => .error e
    | .ok rec =>
      match load_json_files rest with
      | .error e => .error e
      | .ok rs =>
        match rec with
        | some row => .ok (row :: rs)
        | none => .ok rs

/-! ## Dataset loader (`load_all_data`) -/

/-- The data directory as the loader sees it: whether `Path(DATA_DIR)`
exists, and the directory entries (name and content). -/
structure FS where
  dirExists : Bool
  files : List (String × FileContent)

/-- Does a directory entry match `data_path.glob("speedtest-*.json")`
(line 198)? -/
def globMatch (name : String) : Bool :=
  "speedtest-".data.isPrefixOf name.data
    && name.data.length ≥ 15
    && ".json".data.isSuffixOf name.data

/-- Result of one `load_all_data` run: the returned DataFrame, the cache
state after the run, and how many times `load_single_file` was invoked. -/
structure LoadResult where
  out : DFrame
  cache : Option DFrame
  parseCalls : Nat

/-- The cold path of `load_all_data` (lines 226-241): no cache, or an empty
cached frame; parse every matching file.  With zero records the function
returns an empty frame WITHOUT writing the cache (lines 231-232). -/
def loadCold (matching : List (String × FileContent)) (cache : Option DFrame) :
    Except PyErr LoadResult :=
  match load_json_files matching with
  | .error e => .error e
  | .ok records =>
    if records.isEmpty then .ok ⟨emptyDF, cache, matching.length⟩
    else
      match dfDropSource (sortDF (mkDF records)) with
      | .error e => .error e
      | .ok out => .ok ⟨out, some (sortDF (mkDF records)), matching.length⟩

/-- `set(cached_df["source_file"].unique())` (line 207): the source
identifiers recorded in the cached snapshot. -/
def cachedNamesOf (c : DFrame) : List String :=
  c.rows.filterMap (fun r => r.source_file)

/-- The new-files computation of lines 208-210: the on-disk matching files
whose name is not among the snapshot's source identifiers. -/
def newFilesOf (c : DFrame) (matching : List (String × FileContent)) :
    List (String × FileContent) :=
  matching.filter (fun p => !(cachedNamesOf c).contains p.1)

/-- Merge freshly parsed records into the cached frame (lines 221-225):
`pd.concat` when any record resulted, the cached frame unchanged otherwise. -/
def mergeNew (c : DFrame) (records : List Row) : DFrame :=
  if records.isEmpty then c else dfConcat c (mkDF records)

/-- The warm path of `load_all_data` (lines 205-241): a non-empty cached
frame exists.  `cached_df["source_file"]` (line 207) raises `KeyError` if
the column is missing from the snapshot.  With no new files the snapshot is
returned dropped-then-sorted (lines 212-216) and nothing is parsed or
written; otherwise only the new files are parsed, appended (when any record
resulted), and the combined frame is sorted, saved and returned without the
`source_file` column (lines 218-241). -/
def loadWarm (c : DFrame) (matching : List (String × FileContent)) :
    Except PyErr LoadResult :=
  if !c.cols.contains "source_file" then .error .keyError
  else if (newFilesOf c matching).isEmpty then
    match dfDropSource c with
    | .error e => .error e
    | .ok d => .ok ⟨sortDF d, some c, 0⟩
  else
    match load_json_files (newFilesOf c matching) with
    | .error e => .error e
    | .ok records =>
      match dfDropSource (sortDF (mergeNew c records)) with
      | .error e => .error e
      | .ok out => .ok ⟨out, some (sortDF (mergeNew c records)), (newFilesOf c matching).length⟩

/-- `load_all_data` (lines 182-241).  The Parquet cache file is modelled as
`Option DFrame`: `none` covers both "file does not exist" and "file fails
to parse" (`_load_cache`, lines 162-170), and a successful `_save_cache`
replaces it (the write is modelled as succeeding).  The count of
`load_single_file` invocations is returned for the incremental-loading
claims. -/
def load_all_data (fs : FS) (cache : Option DFrame) : Except PyErr LoadResult :=
  if !fs.dirExists then .ok ⟨emptyDF, cache, 0⟩
  else if (fs.files.filter (fun p => globMatch p.1)).isEmpty then .ok ⟨emptyDF, cache, 0⟩
  else
    match cache with
    | some c =>
      if !c.rows.isEmpty then loadWarm c (fs.files.filter (fun p => globMatch p.1))
      else loadCold (fs.files.filter (fun p => globMatch p.1)) cache
    | none => loadCold (fs.files.filter (fun p => globMatch p.1)) cache

/-! ## `get_latest_measurements` -/

/-- `df.tail(n)` on the row list: pandas returns `iloc[0:0]` for `n = 0`,
the last `min(n, len)` rows for positive `n`, and all rows but the first
`|n|` for negative `n`. -/
def pdTail (rows : List Row) (n : Int) : List Row :=
  if n = 0 then []
  else if 0 < n then rows.drop (rows.length - n.toNat)
  else rows.drop (-n).toNat

/-- `get_latest_measurements` (lines 244-248): an empty frame is returned
unchanged, otherwise `df.tail(count).iloc[::-1]`. -/
def get_latest_measurements (df : DFrame) (count : Int) : DFrame :=
  if df.rows.isEmpty then df
  else ⟨df.cols, (pdTail df.rows count).reverse⟩

/-! ## Aggregator (`aggregate_to_intervals`) -/

/-- `timestamp.dt.floor("<w>min")` (line 264): flooring an epoch instant to
a multiple of `w` minutes since the epoch (pandas fixed frequencies are
anchored at the epoch).  The width is in minutes, timestamps in
milliseconds.  Assumes `w > 0` (pandas rejects a zero frequency). -/
def bucketOf (w : Nat) (t : Int) : Int :=
  ((w : Int) * 60000) * Int.fdiv t ((w : Int) * 60000)

/-- Numeric value of a metric cell, if the cell holds a number. -/
def numVal : JVal → Option Rat
  | .num q => some q
  | _ => none

/-- The pandas `"mean"` aggregation of one metric column over one group:
missing values (`NaN`) are skipped, an all-missing group yields a missing
value.  (Non-numeric cells make the column an object column, which the
aggregation rejects; that case is excluded before this function is used.) -/
def colMean (group : List Row) (c : String) : Option JVal :=
  let qs := group.filterMap (fun r => (r.metric c).bind numVal)
  if qs.isEmpty then none
  else some (.num (qs.sum / (qs.length : Rat)))

/-- The output row of `groupby("interval").agg(...)` for group key `k`,
after `reset_index()` and the rename of `interval` to `timestamp`
(lines 268-269): only the bucket timestamp and the aggregated metric
columns are present. -/
def mkAggRow (k : Int) (metric_cols : List String) (group : List Row) : Row :=
  { timestamp := k
    source_file := none
    sessionID := none
    endpoint := none
    download := if metric_cols.contains "download" then colMean group "download" else none
    upload := if metric_cols.contains "upload" then colMean group "upload" else none
    latency := if metric_cols.contains "latency" then colMean group "latency" else none
    jitter := if metric_cols.contains "jitter" then colMean group "jitter" else none
    downLoadedLatency :=
      if metric_cols.contains "downLoadedLatency" then colMean group "downLoadedLatency" else none
    downLoadedJitter :=
      if metric_cols.contains "downLoadedJitter" then colMean group "downLoadedJitter" else none
    upLoadedLatency :=
      if metric_cols.contains "upLoadedLatency" then colMean group "upLoadedLatency" else none
    upLoadedJitter :=
      if metric_cols.contains "upLoadedJitter" then colMean group "upLoadedJitter" else none }

/-- Does some row hold a non-numeric, non-missing value in column `c`?
Such a column is an object column, on which the `"mean"` aggregation
raises `TypeError`. -/
def hasNonNumeric (rows : List Row) (c : String) : Bool :=
  rows.any (fun r => match r.metric c with
    | some (.num _) => false
    | some _ => true
    | none => false)

/-- `aggregate_to_intervals` (lines 251-271): an empty frame is returned
as-is; otherwise an `interval` key column is computed by flooring each
timestamp (line 264), the frame is grouped by it with the group keys sorted
ascending (pandas `groupby` default), each metric column present in the
frame is aggregated by its mean (lines 266-268), the key column is renamed
back to `timestamp` (line 269) and the result is sorted by it (line 271). -/
def aggregate_to_intervals (df : DFrame) (interval_minutes : Nat) :
    Except PyErr DFrame :=
  if df.rows.isEmpty then .ok df
  else if (df.cols.filter (fun c => metricNames.contains c)).any
      (fun c => hasNonNumeric df.rows c) then .error .typeError
  else .ok (sortDF
    ⟨"timestamp" :: df.cols.filter (fun c => metricNames.contains c),
     (((df.rows.map (fun r => (bucketOf interval_minutes r.timestamp, r))).map
         (fun p => p.1)).eraseDups).insertionSort (· ≤ ·) |>.map (fun k =>
       mkAggRow k (df.cols.filter (fun c => metricNames.contains c))
         (((df.rows.map (fun r => (bucketOf interval_minutes r.timestamp, r))).filter
             (fun p => p.1 == k)).map (fun p => p.2)))⟩)

/-- Follows the spec's words (section 4.6 / claim C6): "for every record,
compute its bucket as the timestamp floored to the interval width; group
all records sharing a bucket; for each known metric column present, compute
the arithmetic mean ignoring rows where that metric is absent.  Output: one
row per distinct bucket, sorted ascending by bucket start time, with the
bucket start time exposed as the timestamp field.  Empty input yields empty
output."  Stated directly on the rows, used to check the code's aggregator
against the spec. -/
def aggregateSpec (df : DFrame) (w : Nat) : DFrame :=
  if df.rows.isEmpty then df
  else
    ⟨"timestamp" :: df.cols.filter (fun c => metricNames.contains c),
     (((df.rows.map (fun r => bucketOf w r.timestamp)).eraseDups).insertionSort (· ≤ ·)).map
       (fun k =>
         mkAggRow k (df.cols.filter (fun c => metricNames.contains c))
           (df.rows.filter (fun r => bucketOf w r.timestamp == k)))⟩

/-! ## Cache path (`_get_cache_path`)

`_get_cache_path` (lines 21-25) names the cache file after
`hashlib.md5(DATA_DIR.encode()).hexdigest()[:12]`.  `str.encode()` is
UTF-8, and `hashlib.md5` is the MD5 of RFC 1321, embedded below over `Nat`
byte and word lists (32-bit arithmetic taken mod `2^32`). -/

/-- UTF-8 encoding of one character (`str.encode()`). -/
def utf8Char (c : Char) : List Nat :=
  let n := c.toNat
  if n < 128 then [n]
  else if n < 2048 then [192 + n / 64, 128 + n % 64]
  else if n < 65536 then [224 + n / 4096, 128 + (n / 64) % 64, 128 + n % 64]
  else [240 + n / 262144, 128 + (n / 4096) % 64, 128 + (n / 64) % 64, 128 + n % 64]

/-- UTF-8 bytes of a string (`str.encode()`). -/
def strBytes (s : String) : List Nat :=
  s.data.foldr (fun c acc => utf8Char c ++ acc) []

/-- Addition mod `2^32`. -/
def add32 (a b : Nat) : Nat := (a + b) % 4294967296

/-- Bitwise complement on 32-bit words. -/
def not32 (x : Nat) : Nat := 4294967295 - x

/-- Left rotation of a 32-bit word. -/
def rotl32 (x n : Nat) : Nat :=
  (((x <<< n) % 4294967296) ||| (x >>> (32 - n)))

/-- The MD5 sine table `T[1..64]` of RFC 1321. -/
def md5K : List Nat :=
  [3614090360, 3905402710, 606105819, 3250441966, 4118548399, 1200080426, 2821735955, 4249261313,
   1770035416, 2336552879, 4294925233, 2304563134, 1804603682, 4254626195, 2792965006, 1236535329,
   4129170786, 3225465664, 643717713, 3921069994, 3593408605, 38016083, 3634488961, 3889429448,
   568446438, 3275163606, 4107603335, 1163531501, 2850285829, 4243563512, 1735328473, 2368359562,
   4294588738, 2272392833, 1839030562, 4259657740, 2763975236, 1272893353, 4139469664, 3200236656,
   681279174, 3936430074, 3572445317, 76029189, 3654602809, 3873151461, 530742520, 3299628645,
   4096336452, 1126891415, 2878612391, 4237533241, 1700485571, 2399980690, 4293915773, 2240044497,
   1873313359, 4264355552, 2734768916, 1309151649, 4149444226, 3174756917, 718787259, 3951481745]

/-- The MD5 per-step rotation amounts. -/
def md5S : List Nat :=
  [7, 12, 17, 22, 7, 12, 17, 22, 7, 12, 17, 22, 7, 12, 17, 22,
   5, 9, 14, 20, 5, 9, 14, 20, 5, 9, 14, 20, 5, 9, 14, 20,
   4, 11, 16, 23, 4, 11, 16, 23, 4, 11, 16, 23, 4, 11, 16, 23,
   6, 10, 15, 21, 6, 10, 15, 21, 6, 10, 15, 21, 6, 10, 15, 21]

/-- The MD5 round function applied at step `i`. -/
def md5F (i b c d : Nat) : Nat :=
  if i < 16 then (b &&& c) ||| (not32 b &&& d)
  else if i < 32 then (b &&& d) ||| (c &&& not32 d)
  else if i < 48 then b ^^^ c ^^^ d
  else c ^^^ (b ||| not32 d)

/-- The MD5 message word index used at step `i`. -/
def md5G (i : Nat) : Nat :=
  if i < 16 then i
  else if i < 32 then (5 * i + 1) % 16
  else if i < 48 then (3 * i + 5) % 16
  else (7 * i) % 16

/-- One MD5 step on the state `(a, b, c, d)` with message words `M`. -/
def md5Step (M : List Nat) (st : Nat × Nat × Nat × Nat) (i : Nat) :
    Nat × Nat × Nat × Nat :=
  let (a, b, c, d) := st
  let t := add32 (add32 a (md5F i b c d)) (add32 (md5K.getD i 0) (M.getD (md5G i) 0))
  (d, add32 b (rotl32 t (md5S.getD i 0)), b, c)

/-- Process one 64-byte block: 64 steps, then add the block result into the
running state (all mod `2^32`). -/
def md5Block (st : Nat × Nat × Nat × Nat) (M : List Nat) : Nat × Nat × Nat × Nat :=
  let (a0, b0, c0, d0) := st
  let (a, b, c, d) := (List.range 64).foldl (md5Step M) st
  (add32 a0 a, add32 b0 b, add32 c0 c, add32 d0 d)

/-- Group a byte list into little-endian 32-bit words. -/
def toWordsLE : List Nat → List Nat
  | b0 :: b1 :: b2 :: b3 :: rest =>
    (b0 + 256 * b1 + 65536 * b2 + 16777216 * b3) :: toWordsLE rest
  | _ => []

/-- Process the message words sixteen at a time (one 64-byte block per
step), threading the MD5 state. -/
def md5Process (st : Nat × Nat × Nat × Nat) : List Nat → Nat × Nat × Nat × Nat
  | w0 :: w1 :: w2 :: w3 :: w4 :: w5 :: w6 :: w7 ::
    w8 :: w9 :: w10 :: w11 :: w12 :: w13 :: w14 :: w15 :: rest =>
    md5Process (md5Block st
      [w0, w1, w2, w3, w4, w5, w6, w7, w8, w9, w10, w11, w12, w13, w14, w15]) rest
  | _ => st

/-- MD5 padding: a `0x80` byte, zeros to 56 mod 64, then the bit length as
a 64-bit little-endian number. -/
def md5Pad (msg : List Nat) : List Nat :=
  let n := 8 * msg.length
  msg ++ [128] ++ List.replicate ((119 - msg.length % 64) % 64) 0
    ++ [n % 256, n / 256 % 256, n / 65536 % 256, n / 16777216 % 256,
        n / 4294967296 % 256, n / 1099511627776 % 256,
        n / 281474976710656 % 256, n / 72057594037927936 % 256]

/-- The four bytes of a 32-bit word, little-endian. -/
def le4 (x : Nat) : List Nat :=
  [x % 256, x / 256 % 256, x / 65536 % 256, x / 16777216 % 256]

/-- The 16-byte MD5 digest of a byte list. -/
def md5Bytes (msg : List Nat) : List Nat :=
  let st := md5Process (1732584193, 4023233417, 2562383102, 271733878)
    (toWordsLE (md5Pad msg))
  le4 st.1 ++ le4 st.2.1 ++ le4 st.2.2.1 ++ le4 st.2.2.2

/-- A lowercase hexadecimal digit character. -/
def hexDigit (n : Nat) : Char :=
  if n < 10 then Char.ofNat (48 + n) else Char.ofNat (87 + n)

/-- `hashlib.md5(s.encode()).hexdigest()` as a character list. -/
def md5HexChars (s : String) : List Char :=
  (md5Bytes (strBytes s)).foldr (fun b acc => hexDigit (b / 16) :: hexDigit (b % 16) :: acc) []

/-- `hashlib.md5(dataDir.encode()).hexdigest()[:12]` (line 24). -/
def md5Hex12 (dataDir : String) : String := ⟨(md5HexChars dataDir).take 12⟩

/-- `_get_cache_path` (lines 21-25): the cache file path, built from the
temp directory (`tempfile.gettempdir()`, a fixed property of the host,
passed here as a parameter) and the 12-character truncated MD5 of the
configured data directory. -/
def _get_cache_path (tmpDir dataDir : String) : String :=
  tmpDir ++ "/speedtest_cache_" ++ md5Hex12 dataDir ++ ".parquet"

/-! # Claims -/

/-- **C1** (code bug evidence): the claim says `load_single_file` returns
"no record" rather than raising whenever the file lacks required top-level
fields, and the function's own docstring says "Returns None if file is
corrupt or missing required fields".  But for a file whose entire content
is the valid JSON document `[]` (which certainly lacks the required
top-level fields), line 119 evaluates `[].get(...)`, raising
`AttributeError`, which is not in the `except` tuple of line 143 and
propagates to the caller. -/
theorem c1_nondict_payload_raises :
    load_single_file "speedtest-2024-01-15T10-30-00-000Z.json" (.parsed (.arr [])) =
      .error .attributeError := rfl

/-- **C2** (counterexample): the claim says every filename that does not
match the exact shape — including a wrong suffix/extension — yields "no
timestamp".  But `re.match` only anchors at the start, so a filename with
trailing characters after `.json` is accepted and parses to a timestamp. -/
theorem c2_counterexample_trailing_garbage_accepted :
    parse_timestamp_from_filename "speedtest-2024-01-15T10-30-00-000Z.jsonX" =
      some 1705314600000 := rfl

/-- **C2** (amended): for every filename that does not BEGIN with the shape
`speedtest-<YYYY-MM-DD>T<HH>-<MM>-<SS>-<mmm>Z.json`, the parser returns "no
timestamp" (and, being a total function, never raises); trailing characters
after `.json` are tolerated because the code uses prefix matching. -/
theorem c2_nonmatching_filename_returns_none (s : String)
    (h : matchesSpecShape s = false) :
    parse_timestamp_from_filename s = none := by
  unfold parse_timestamp_from_filename
  unfold matchesSpecShape at h
  cases hsp : splitShape s.data with
  | none => rfl
  | some f =>
    rw [hsp] at h
    have hd : digitsOk f = false := h
    simp [hd]

/-- Witness for C2's amended theorem at a concrete garbage filename. -/
theorem c2_witness_garbage_filename :
    matchesSpecShape "garbage.json" = false ∧
    parse_timestamp_from_filename "garbage.json" = none :=
  ⟨rfl, c2_nonmatching_filename_returns_none "garbage.json" rfl⟩

set_option maxRecDepth 8000 in
/-- **C3** (counterexample): the claim says distinct data directories never
collide on the same cache file, but the path uses only 12 hex characters
(48 bits) of the MD5 digest; the two distinct directory strings below
share that digest prefix (`020cfd3a7985`) and receive the same path. -/
theorem c3_counterexample_distinct_dirs_same_path :
    _get_cache_path "/tmp" "d38725029" = _get_cache_path "/tmp" "d44258054" ∧
    "d38725029" ≠ "d44258054" :=
  ⟨by decide, by decide⟩

/-- **C3** (amended): the cache path is a deterministic function of the
data directory string, and two data directories receive the same path
exactly when their truncated 12-character MD5 hex digests agree — which,
the hash being truncated to 48 bits, distinct directories can do. -/
theorem c3_path_equal_iff_hash_prefix_equal (tmpDir d1 d2 : String) :
    _get_cache_path tmpDir d1 = _get_cache_path tmpDir d2 ↔
      md5Hex12 d1 = md5Hex12 d2 := by
  constructor
  · intro h
    have h' := congrArg String.data h
    simp only [_get_cache_path, String.data_append] at h'
    exact String.ext (List.append_cancel_left (List.append_cancel_right h'))
  · intro h
    unfold _get_cache_path
    rw [h]

/-- **C8**: a record is produced only when the payload's `success` field is
present and truthy; an absent `success` (the `.get` default `False`) or any
falsy value (`false`, `0`, `""`, `[]`, `{}`, `null`) yields no record. -/
theorem c8_record_only_when_success_truthy (filename : String)
    (entries : List (String × JVal)) :
    (truthy (jget entries "success" (.bool false)) = false →
        load_single_file filename (.parsed (.obj entries)) = .ok none) ∧
    (∀ r, load_single_file filename (.parsed (.obj entries)) = .ok (some r) →
        truthy (jget entries "success" (.bool false)) = true) := by
  have hnone : truthy (jget entries "success" (.bool false)) = false →
      load_single_file filename (.parsed (.obj entries)) = .ok none := by
    intro h
    simp [load_single_file, load_single_file_body, extractRecord, readJson, h]
  refine ⟨hnone, fun r hr => ?_⟩
  by_cases h : truthy (jget entries "success" (.bool false))
  · exact h
  · rw [hnone (by simpa using h)] at hr
    simp at hr

/-- Witness for C8 at a payload whose `success` is the falsy number `0`. -/
theorem c8_witness_zero_success :
    truthy (jget [("success", JVal.num 0), ("result", JVal.obj [])] "success" (.bool false)) = false ∧
    load_single_file "speedtest-2024-01-15T10-30-00-000Z.json"
      (.parsed (.obj [("success", JVal.num 0), ("result", JVal.obj [])])) = .ok none :=
  ⟨rfl, (c8_record_only_when_success_truthy _ _).1 rfl⟩

/-- **C9**: `get_latest_measurements` returns exactly the last
`min(count, len)` rows, most recent first (equivalently: the reversed rows
truncated to `count`), with the column set unchanged; an empty frame is
returned unchanged.  (The function is pure, so the input frame is
unaffected by construction.) -/
theorem c9_latest_is_reversed_tail (df : DFrame) (n : Nat) :
    (get_latest_measurements df (n : Int)).cols = df.cols ∧
    (get_latest_measurements df (n : Int)).rows = df.rows.reverse.take n ∧
    (get_latest_measurements df (n : Int)).rows.length = min n df.rows.length := by
  have hrows : (get_latest_measurements df (n : Int)).rows = df.rows.reverse.take n := by
    unfold get_latest_measurements
    cases he : df.rows.isEmpty with
    | true =>
      rw [List.isEmpty_iff] at he
      simp [he]
    | false =>
      simp only [he, Bool.false_eq_true, if_false]
      unfold pdTail
      by_cases h0 : (n : Int) = 0
      · have hn0 : n = 0 := by exact_mod_cast h0
        simp [h0, hn0]
      · have hpos : (0 : Int) < (n : Int) := by omega
        rw [if_neg h0, if_pos hpos]
        show (df.rows.rtake n).reverse = df.rows.reverse.take n
        rw [List.rtake_eq_reverse_take_reverse, List.reverse_reverse]
  refine ⟨?_, hrows, ?_⟩
  · unfold get_latest_measurements
    split <;> rfl
  · rw [hrows]
    simp

/-! ## Helper lemmas about the pipeline -/

theorem sortDF_rows_sorted (d : DFrame) : List.Sorted rowLE (sortDF d).rows :=
  List.sorted_insertionSort rowLE d.rows

theorem sorted_map_clearSource {l : List Row} (h : List.Sorted rowLE l) :
    List.Sorted rowLE (l.map (fun r => { r with source_file := none })) :=
  List.Pairwise.map _ (fun _ _ hab => hab) h

theorem dfDropSource_ok {d d' : DFrame} (h : dfDropSource d = .ok d') :
    d'.cols = d.cols.filter (fun c => !(c == "source_file")) ∧
    d'.rows = d.rows.map (fun r => { r with source_file := none }) := by
  unfold dfDropSource at h
  split at h
  · cases h
    exact ⟨rfl, rfl⟩
  · cases h

theorem source_not_mem_filter (cols : List String) :
    "source_file" ∉ cols.filter (fun c => !(c == "source_file")) := by
  simp

theorem clearSource_mem {l : List Row} {r : Row}
    (h : r ∈ l.map (fun r => { r with source_file := none })) :
    r.source_file = none := by
  simp only [List.mem_map] at h
  obtain ⟨a, _, rfl⟩ := h
  rfl

theorem emptyDF_props :
    List.Sorted rowLE emptyDF.rows ∧ "source_file" ∉ emptyDF.cols ∧
    ∀ r ∈ emptyDF.rows, r.source_file = none :=
  ⟨List.sorted_nil, by simp [emptyDF], by simp [emptyDF]⟩

theorem loadCold_props {matching : List (String × FileContent)}
    {cache : Option DFrame} {res : LoadResult}
    (h : loadCold matching cache = .ok res) :
    List.Sorted rowLE res.out.rows ∧ "source_file" ∉ res.out.cols ∧
    ∀ r ∈ res.out.rows, r.source_file = none := by
  unfold loadCold at h
  split at h
  · cases h
  · split at h
    · cases h
      exact emptyDF_props
    · split at h
      · cases h
      · rename_i records _ o hd
        cases h
        obtain ⟨hc, hr⟩ := dfDropSource_ok hd
        refine ⟨?_, ?_, ?_⟩
        · exact hr ▸ sorted_map_clearSource (sortDF_rows_sorted _)
        · exact hc ▸ source_not_mem_filter _
        · intro r hrm
          rw [hr] at hrm
          exact clearSource_mem hrm

theorem loadWarm_props {c : DFrame} {matching : List (String × FileContent)}
    {res : LoadResult} (h : loadWarm c matching = .ok res) :
    List.Sorted rowLE res.out.rows ∧ "source_file" ∉ res.out.cols ∧
    ∀ r ∈ res.out.rows, r.source_file = none := by
  unfold loadWarm at h
  split at h
  · cases h
  · split at h
    · split at h
      · cases h
      · rename_i d hd
        cases h
        obtain ⟨hc, hr⟩ := dfDropSource_ok hd
        refine ⟨sortDF_rows_sorted _, hc ▸ source_not_mem_filter _, ?_⟩
        intro r hrm
        have hmem : r ∈ d.rows := (List.mem_insertionSort rowLE).1 hrm
        rw [hr] at hmem
        exact clearSource_mem hmem
    · split at h
      · cases h
      · split at h
        · cases h
        · rename_i records _ o hd
          cases h
          obtain ⟨hc, hr⟩ := dfDropSource_ok hd
          refine ⟨?_, hc ▸ source_not_mem_filter _, ?_⟩
          · exact hr ▸ sorted_map_clearSource (sortDF_rows_sorted _)
          · intro r hrm
            rw [hr] at hrm
            exact clearSource_mem hrm

/-- **C5**: every frame returned by `load_all_data` — on the
missing-directory, empty-directory, cache-hit, incremental-merge and cold
full-load paths alike — is sorted ascending by timestamp and carries no
`source_file` column (neither the column label nor any per-row value). -/
theorem c5_output_sorted_and_sourceless (fs : FS) (cache : Option DFrame)
    (res : LoadResult) (h : load_all_data fs cache = .ok res) :
    List.Sorted rowLE res.out.rows ∧ "source_file" ∉ res.out.cols ∧
    ∀ r ∈ res.out.rows, r.source_file = none := by
  unfold load_all_data at h
  split at h
  · cases h
    exact emptyDF_props
  · split at h
    · cases h
      exact emptyDF_props
    · cases cache with
      | some c =>
        cases hce : c.rows.isEmpty with
        | true =>
          simp only [hce, Bool.not_true, Bool.false_eq_true, if_false] at h
          exact loadCold_props h
        | false =>
          simp only [hce, Bool.not_false, if_true] at h
          exact loadWarm_props h
      | none => exact loadCold_props h

theorem isEmpty_false_of_ne_nil {α : Type _} {l : List α} (h : l ≠ []) :
    l.isEmpty = false := by
  cases l with
  | nil => exact absurd rfl h
  | cons a t => rfl

theorem string_contains_iff {l : List String} {a : String} :
    l.contains a = true ↔ a ∈ l := by
  simp

/-- A record successfully produced by `load_single_file` carries the
filename as its source identifier (line 133). -/
theorem load_single_file_source {n : String} {c : FileContent} {r : Row}
    (h : load_single_file n c = .ok (some r)) : r.source_file = some n := by
  unfold load_single_file at h
  split at h
  · split at h
    · simp at h
    · cases h
  · rename_i v hb
    cases h
    unfold load_single_file_body at hb
    split at hb
    · cases hb
    · rename_i data hr
      unfold extractRecord at hb
      split at hb
      · split at hb
        · simp at hb
        · split at hb
          · simp at hb
          · split at hb
            · simp at hb
            · split at hb
              · cases hb
              · cases hb
                rfl
      · cases hb

/-- When every file in the batch extracts successfully, the parallel loader
returns one record per file, each carrying its file's name as source
identifier. -/
theorem load_json_files_all_ok {files : List (String × FileContent)}
    (hall : ∀ p ∈ files, ∃ r, load_single_file p.1 p.2 = .ok (some r)) :
    ∃ records, load_json_files files = .ok records ∧
      records.length = files.length ∧
      ∀ p ∈ files, ∃ r ∈ records, r.source_file = some p.1 := by
  induction files with
  | nil => exact ⟨[], rfl, rfl, by simp⟩
  | cons p rest ih =>
    obtain ⟨n, c⟩ := p
    obtain ⟨r, hr⟩ := hall (n, c) (by simp)
    obtain ⟨records, hrec, hlen, hmem⟩ := ih (fun q hq => hall q (by simp [hq]))
    refine ⟨r :: records, ?_, by simp [hlen], ?_⟩
    · unfold load_json_files
      rw [hr, hrec]
    · intro q hq
      rcases List.mem_cons.mp hq with rfl | hq'
      · exact ⟨r, by simp, load_single_file_source hr⟩
      · obtain ⟨r', hr', hs⟩ := hmem q hq'
        exact ⟨r', by simp [hr'], hs⟩

theorem mem_foldl_keys (records : List Row) (r : Row) (k : String) :
    ∀ acc : List String, (k ∈ acc ∨ (r ∈ records ∧ k ∈ rowKeys r)) →
      k ∈ records.foldl
        (fun acc r => acc ++ (rowKeys r).filter (fun k => !acc.contains k)) acc := by
  induction records with
  | nil =>
    intro acc h
    rcases h with h | ⟨h, _⟩
    · exact h
    · simp at h
  | cons a rest ih =>
    intro acc h
    apply ih
    rcases h with hacc | ⟨hmem, hk⟩
    · exact Or.inl (List.mem_append_left _ hacc)
    · rcases List.mem_cons.mp hmem with rfl | hrest
      · left
        by_cases hka : k ∈ acc
        · exact List.mem_append_left _ hka
        · refine List.mem_append_right _ ?_
          rw [List.mem_filter]
          exact ⟨hk, by simp [hka]⟩
      · exact Or.inr ⟨hrest, hk⟩

/-- Every key of every record appears among the columns of
`pd.DataFrame(records)`. -/
theorem mem_unionKeys {records : List Row} {r : Row} {k : String}
    (hr : r ∈ records) (hk : k ∈ rowKeys r) : k ∈ unionKeys records :=
  mem_foldl_keys records r k [] (Or.inr ⟨hr, hk⟩)

theorem source_mem_rowKeys (r : Row) : "source_file" ∈ rowKeys r := by
  simp [rowKeys]

/-- **C4** (amended): if the first run of `load_all_data` over a directory
(with no pre-existing cache) successfully extracts a record from EVERY
matching file, then a second run over the unchanged directory returns the
identical frame, leaves the cache snapshot unchanged, and invokes the
record extractor zero times.  (Without the all-files-extract proviso the
code re-parses the skipped files on every run — see the counterexample —
exactly as spec section 7 describes: "a skipped file is simply skipped
until a future run, when it will be reattempted".) -/
theorem c4_second_run_is_noop (fs : FS)
    (hall : ∀ p ∈ fs.files.filter (fun p => globMatch p.1),
      ∃ r, load_single_file p.1 p.2 = .ok (some r))
    (res1 : LoadResult) (h1 : load_all_data fs none = .ok res1) :
    load_all_data fs res1.cache = .ok ⟨res1.out, res1.cache, 0⟩ := by
  unfold load_all_data at h1 ⊢
  by_cases hdir : (!fs.dirExists) = true
  · rw [if_pos hdir] at h1
    cases h1
    rw [if_pos hdir]
  · rw [if_neg hdir] at h1 ⊢
    by_cases hm : (fs.files.filter (fun p => globMatch p.1)).isEmpty = true
    · rw [if_pos hm] at h1
      cases h1
      rw [if_pos hm]
    · rw [if_neg hm] at h1 ⊢
      have hmne : fs.files.filter (fun p => globMatch p.1) ≠ [] := by
        intro h0
        exact hm (by simp [h0])
      obtain ⟨records, hrec, hlen, hmem⟩ := load_json_files_all_ok hall
      have hrne : records ≠ [] := by
        intro h0
        rw [h0] at hlen
        exact hmne (List.length_eq_zero.mp hlen.symm)
      dsimp only [] at h1
      unfold loadCold at h1
      rw [hrec] at h1
      dsimp only [] at h1
      rw [isEmpty_false_of_ne_nil hrne] at h1
      simp only [Bool.false_eq_true, if_false] at h1
      have hcontains : (sortDF (mkDF records)).cols.contains "source_file" = true := by
        rw [string_contains_iff]
        obtain ⟨r0, hr0⟩ := List.exists_mem_of_ne_nil records hrne
        exact mem_unionKeys hr0 (source_mem_rowKeys r0)
      have hdropok : ∃ d', dfDropSource (sortDF (mkDF records)) = .ok d' := by
        unfold dfDropSource
        rw [if_pos hcontains]
        exact ⟨_, rfl⟩
      obtain ⟨d', hd'⟩ := hdropok
      rw [hd'] at h1
      dsimp only [] at h1
      cases h1
      have hcne : (sortDF (mkDF records)).rows.isEmpty = false := by
        apply isEmpty_false_of_ne_nil
        intro h0
        apply hrne
        have h0' : List.insertionSort rowLE records = [] := h0
        have hl := List.length_insertionSort rowLE records
        rw [h0'] at hl
        exact List.length_eq_zero.mp hl.symm
      dsimp only []
      simp only [hcne, Bool.not_false, eq_self_iff_true, if_true]
      unfold loadWarm
      simp only [hcontains, Bool.not_true, Bool.false_eq_true, if_false]
      have hnew : newFilesOf (sortDF (mkDF records)) (fs.files.filter (fun p => globMatch p.1)) = [] := by
        unfold newFilesOf
        rw [List.filter_eq_nil_iff]
        intro p hp
        obtain ⟨r, hrmem, hs⟩ := hmem p hp
        have hpm : p.1 ∈ cachedNamesOf (sortDF (mkDF records)) := by
          unfold cachedNamesOf
          rw [List.mem_filterMap]
          exact ⟨r, (List.mem_insertionSort rowLE).2 hrmem, hs⟩
        simp [hpm]
      rw [hnew]
      simp only [List.isEmpty_nil, eq_self_iff_true, if_true]
      rw [hd']
      have hd'sorted : List.Sorted rowLE d'.rows := by
        obtain ⟨hc, hr⟩ := dfDropSource_ok hd'
        exact hr ▸ sorted_map_clearSource (sortDF_rows_sorted _)
      have hsd : sortDF d' = d' := by
        unfold sortDF
        rw [List.Sorted.insertionSort_eq hd'sorted]
      dsimp only []
      rw [hsd]

/-- A concrete data directory holding one valid measurement file. -/
def fsOneGood : FS :=
  ⟨true, [("speedtest-2024-01-15T10-30-00-000Z.json",
    .parsed (.obj [("success", .bool true),
                   ("result", .obj [("download", .num 50000000), ("latency", .num 12)])]))]⟩

/-- The result of a cold `load_all_data` run over `fsOneGood`. -/
def resOneGood : LoadResult :=
  match load_all_data fsOneGood none with
  | .ok r => r
  | .error _ => ⟨emptyDF, none, 0⟩

/-- Witness for C5 on a concrete cold load. -/
theorem c5_witness_concrete_cold_load :
    load_all_data fsOneGood none = .ok resOneGood ∧
    (List.Sorted rowLE resOneGood.out.rows ∧ "source_file" ∉ resOneGood.out.cols ∧
      ∀ r ∈ resOneGood.out.rows, r.source_file = none) :=
  ⟨rfl, c5_output_sorted_and_sourceless fsOneGood none resOneGood rfl⟩

/-- A concrete data directory holding one corrupt (unparsable) file. -/
def fsOneBad : FS :=
  ⟨true, [("speedtest-2024-01-15T10-30-00-000Z.json", .malformed)]⟩

/-- **C4** (counterexample): over a directory with a single corrupt file,
the first run returns the empty frame, writes NO cache (lines 231-232) and
parses 1 file; the cache being still absent, the second run is the very
same computation and again invokes the extractor once — not zero times as
the claim states (both runs do return identical datasets). -/
theorem c4_counterexample_corrupt_file_reparsed :
    load_all_data fsOneBad none = .ok ⟨emptyDF, none, 1⟩ ∧ (1 : Nat) ≠ 0 :=
  ⟨rfl, by decide⟩

/-- Witness for C4's amended theorem on a concrete directory whose one
file extracts successfully. -/
theorem c4_witness_one_good_file :
    (∀ p ∈ fsOneGood.files.filter (fun p => globMatch p.1),
      ∃ r, load_single_file p.1 p.2 = .ok (some r)) ∧
    load_all_data fsOneGood resOneGood.cache = .ok ⟨resOneGood.out, resOneGood.cache, 0⟩ := by
  have hall : ∀ p ∈ fsOneGood.files.filter (fun p => globMatch p.1),
      ∃ r, load_single_file p.1 p.2 = .ok (some r) := by
    intro p hp
    simp only [fsOneGood, List.mem_filter, List.mem_singleton] at hp
    obtain ⟨hp1, _⟩ := hp
    subst hp1
    exact ⟨_, rfl⟩
  exact ⟨hall, c4_second_run_is_noop fsOneGood hall resOneGood rfl⟩

theorem jlookup_isSome_any {entries : List (String × JVal)} {key : String}
    (h : (jlookup entries key).isSome = true) :
    entries.any (fun p => p.1 == key) = true := by
  induction entries with
  | nil => simp [jlookup] at h
  | cons p rest ih =>
    obtain ⟨k, w⟩ := p
    unfold jlookup at h
    cases hl : jlookup rest key with
    | some u => simp [List.any_cons, ih (by simp [hl])]
    | none =>
      rw [hl] at h
      dsimp only [] at h
      split at h
      · rename_i hk
        simp [List.any_cons, hk]
      · simp at h

theorem jlookup_any {entries : List (String × JVal)} {key : String} {v : JVal}
    (h : jlookup entries key = some v) :
    entries.any (fun p => p.1 == key) = true :=
  jlookup_isSome_any (by simp [h])

theorem getConvertedMetric_rate {rkvs : List (String × JVal)} {key : String} {q : Rat}
    (h : jlookup rkvs key = some (.num q)) :
    getConvertedMetric (.obj rkvs) key convertRate = .ok (some (.num (q / 1000000))) := by
  simp [getConvertedMetric, pyContains, pyIndex, jlookup_any h, h, convertRate]

theorem getConvertedMetric_id {rkvs : List (String × JVal)} {key : String} {v : JVal}
    (h : jlookup rkvs key = some v) :
    getConvertedMetric (.obj rkvs) key convertId = .ok (some v) := by
  simp [getConvertedMetric, pyContains, pyIndex, jlookup_any h, h, convertId]

theorem buildMetrics_fields {res : JVal} {m : MetricFields}
    (h : buildMetrics res = .ok m) :
    getConvertedMetric res "download" convertRate = .ok m.download ∧
    getConvertedMetric res "upload" convertRate = .ok m.upload ∧
    getConvertedMetric res "latency" convertId = .ok m.latency ∧
    getConvertedMetric res "jitter" convertId = .ok m.jitter ∧
    getConvertedMetric res "downLoadedLatency" convertId = .ok m.downLoadedLatency ∧
    getConvertedMetric res "downLoadedJitter" convertId = .ok m.downLoadedJitter ∧
    getConvertedMetric res "upLoadedLatency" convertId = .ok m.upLoadedLatency ∧
    getConvertedMetric res "upLoadedJitter" convertId = .ok m.upLoadedJitter := by
  unfold buildMetrics at h
  split at h
  · cases h
  · rename_i dl h1
    split at h
    · cases h
    · rename_i ul h2
      split at h
      · cases h
      · rename_i la h3
        split at h
        · cases h
        · rename_i ji h4
          split at h
          · cases h
          · rename_i dll h5
            split at h
            · cases h
            · rename_i dlj h6
              split at h
              · cases h
              · rename_i ull h7
                split at h
                · cases h
                · rename_i ulj h8
                  cases h
                  exact ⟨h1, h2, h3, h4, h5, h6, h7, h8⟩

/-- **C7**: for every successfully extracted record whose payload `result`
is an object, the byte-rate metrics `download` and `upload` are the raw
payload value divided by 1,000,000 (exact division on the rational
embedding of Python numbers), and the six latency/jitter metrics are the
raw payload value unchanged. -/
theorem c7_metric_conversions (filename : String)
    (entries rkvs : List (String × JVal)) (r : Row)
    (hres : jlookup entries "result" = some (.obj rkvs))
    (hload : load_single_file filename (.parsed (.obj entries)) = .ok (some r)) :
    (∀ q : Rat, jlookup rkvs "download" = some (.num q) →
      r.download = some (.num (q / 1000000))) ∧
    (∀ q : Rat, jlookup rkvs "upload" = some (.num q) →
      r.upload = some (.num (q / 1000000))) ∧
    (∀ v, jlookup rkvs "latency" = some v → r.latency = some v) ∧
    (∀ v, jlookup rkvs "jitter" = some v → r.jitter = some v) ∧
    (∀ v, jlookup rkvs "downLoadedLatency" = some v → r.downLoadedLatency = some v) ∧
    (∀ v, jlookup rkvs "downLoadedJitter" = some v → r.downLoadedJitter = some v) ∧
    (∀ v, jlookup rkvs "upLoadedLatency" = some v → r.upLoadedLatency = some v) ∧
    (∀ v, jlookup rkvs "upLoadedJitter" = some v → r.upLoadedJitter = some v) := by
  unfold load_single_file at hload
  split at hload
  · split at hload
    · simp at hload
    · cases hload
  · rename_i v hb
    cases hload
    unfold load_single_file_body at hb
    split at hb
    · cases hb
    · rename_i data hr
      have hr' : (Except.ok (JVal.obj entries) : Except PyErr JVal) = .ok data := hr
      injection hr' with hd
      subst hd
      unfold extractRecord at hb
      dsimp only [] at hb
      split at hb
      · simp at hb
      · split at hb
        · simp at hb
        · split at hb
          · simp at hb
          · rename_i ts hts
            rw [hres] at hb
            dsimp only [Option.getD] at hb
            split at hb
            · cases hb
            · rename_i m hbm
              injection hb with hsome
              injection hsome with hrec
              subst hrec
              obtain ⟨f1, f2, f3, f4, f5, f6, f7, f8⟩ := buildMetrics_fields hbm
              refine ⟨fun q hq => ?_, fun q hq => ?_, fun v hv => ?_, fun v hv => ?_,
                fun v hv => ?_, fun v hv => ?_, fun v hv => ?_, fun v hv => ?_⟩
              · rw [getConvertedMetric_rate hq] at f1
                injection f1 with e
                exact e.symm
              · rw [getConvertedMetric_rate hq] at f2
                injection f2 with e
                exact e.symm
              · rw [getConvertedMetric_id hv] at f3
                injection f3 with e
                exact e.symm
              · rw [getConvertedMetric_id hv] at f4
                injection f4 with e
                exact e.symm
              · rw [getConvertedMetric_id hv] at f5
                injection f5 with e
                exact e.symm
              · rw [getConvertedMetric_id hv] at f6
                injection f6 with e
                exact e.symm
              · rw [getConvertedMetric_id hv] at f7
                injection f7 with e
                exact e.symm
              · rw [getConvertedMetric_id hv] at f8
                injection f8 with e
                exact e.symm

/-- A concrete successful payload: `download` 50,000,000 and `latency` 12. -/
def entriesFifty : List (String × JVal) :=
  [("success", .bool true),
   ("result", .obj [("download", .num 50000000), ("latency", .num 12)])]

/-- The record extracted from `entriesFifty`. -/
def rowFifty : Row :=
  match load_single_file "speedtest-2024-01-15T10-30-00-000Z.json"
      (.parsed (.obj entriesFifty)) with
  | .ok (some r) => r
  | _ => ⟨0, none, none, none, none, none, none, none, none, none, none, none⟩

/-- Witness for C7: a raw `download` of 50,000,000 converts to exactly 50
(Mbps), and the raw `latency` of 12 passes through unchanged. -/
theorem c7_witness_fifty_mbps :
    rowFifty.download = some (.num 50) ∧ rowFifty.latency = some (.num 12) := by
  have h := c7_metric_conversions "speedtest-2024-01-15T10-30-00-000Z.json"
    entriesFifty [("download", .num 50000000), ("latency", .num 12)] rowFifty rfl rfl
  refine ⟨?_, h.2.2.1 (.num 12) rfl⟩
  have h50 := h.1 50000000 rfl
  rw [h50]
  have : (50000000 : Rat) / 1000000 = 50 := by norm_num
  rw [this]

/-- **C10**: for a non-empty input frame the aggregator's output columns
are exactly the bucket timestamp plus the known metric columns present in
the input; `sessionID` and `endpoint` never appear in aggregated rows. -/
theorem c10_agg_cols (df : DFrame) (w : Nat) (out : DFrame)
    (hne : df.rows ≠ []) (h : aggregate_to_intervals df w = .ok out) :
    out.cols = "timestamp" :: df.cols.filter (fun c => metricNames.contains c) ∧
    "sessionID" ∉ out.cols ∧ "endpoint" ∉ out.cols := by
  unfold aggregate_to_intervals at h
  rw [isEmpty_false_of_ne_nil hne] at h
  simp only [Bool.false_eq_true, if_false] at h
  split at h
  · cases h
  · cases h
    refine ⟨rfl, ?_, ?_⟩
    · intro hmem
      simp [List.mem_filter, metricNames, sortDF] at hmem
    · intro hmem
      simp [List.mem_filter, metricNames, sortDF] at hmem

/-- A one-row frame with non-metric columns, used as the C10 witness. -/
def dfC10 : DFrame :=
  ⟨["timestamp", "sessionID", "endpoint", "download"],
   [⟨36000000, none, some (.str "sess"), some (.str "ep"), some (.num 10),
     none, none, none, none, none, none, none⟩]⟩

/-- The aggregation of `dfC10` into 5-minute buckets. -/
def aggC10 : DFrame :=
  match aggregate_to_intervals dfC10 5 with
  | .ok d => d
  | .error _ => emptyDF

/-- Witness for C10 on a concrete frame carrying `sessionID` and
`endpoint` columns. -/
theorem c10_witness_session_endpoint_dropped :
    dfC10.rows ≠ [] ∧
    aggregate_to_intervals dfC10 5 = .ok aggC10 ∧
    "sessionID" ∉ aggC10.cols ∧ "endpoint" ∉ aggC10.cols := by
  have h := c10_agg_cols dfC10 5 aggC10 (by simp [dfC10]) rfl
  exact ⟨by simp [dfC10], rfl, h.2.1, h.2.2⟩

theorem filter_tag_map (l : List Row) (f : Row → Int) (k : Int) :
    ((l.map (fun r => (f r, r))).filter (fun p => p.1 == k)).map (fun p => p.2)
      = l.filter (fun r => f r == k) := by
  induction l with
  | nil => rfl
  | cons a t ih =>
    simp only [List.map_cons, List.filter_cons]
    by_cases hk : (f a == k) = true
    · simp [hk, ih]
    · simp [hk, ih]

/-- **C6**: the aggregator agrees with the spec's description — bucket each
record by flooring its timestamp to the interval width, one output row per
distinct bucket sorted ascending with the bucket start as the timestamp
field, each known metric column averaged over the records of the bucket
ignoring missing values, and empty input returned as-is.  Hypotheses: the
width is positive (pandas rejects a zero floor frequency) and the metric
cells hold numbers (pandas raises `TypeError` on object columns, and so
does the embedded aggregator). -/
theorem c6_aggregator_matches_spec (df : DFrame) (w : Nat) (_hw : 0 < w)
    (hnum : ∀ r ∈ df.rows, ∀ c ∈ metricNames, ∀ v, r.metric c = some v →
      ∃ q, v = JVal.num q) :
    aggregate_to_intervals df w = .ok (aggregateSpec df w) := by
  unfold aggregate_to_intervals aggregateSpec
  cases he : df.rows.isEmpty with
  | true => simp [he]
  | false =>
    simp only [he, Bool.false_eq_true, if_false]
    have hno : (df.cols.filter (fun c => metricNames.contains c)).any
        (fun c => hasNonNumeric df.rows c) = false := by
      rw [List.any_eq_false]
      intro c hc hbad
      unfold hasNonNumeric at hbad
      rw [List.any_eq_true] at hbad
      obtain ⟨r, hr, hbadr⟩ := hbad
      have hcm : c ∈ metricNames := by
        rw [List.mem_filter] at hc
        exact string_contains_iff.mp hc.2
      cases hv : r.metric c with
      | none => rw [hv] at hbadr; simp at hbadr
      | some v =>
        obtain ⟨q, rfl⟩ := hnum r hr c hcm v hv
        rw [hv] at hbadr
        simp at hbadr
    simp only [hno, Bool.false_eq_true, if_false]
    congr 1
    unfold sortDF
    have hrows :
        ((((df.rows.map (fun r => (bucketOf w r.timestamp, r))).map
            (fun p => p.1)).eraseDups).insertionSort (· ≤ ·)).map (fun k =>
          mkAggRow k (df.cols.filter (fun c => metricNames.contains c))
            (((df.rows.map (fun r => (bucketOf w r.timestamp, r))).filter
                (fun p => p.1 == k)).map (fun p => p.2)))
        = (((df.rows.map (fun r => bucketOf w r.timestamp)).eraseDups).insertionSort
            (· ≤ ·)).map (fun k =>
          mkAggRow k (df.cols.filter (fun c => metricNames.contains c))
            (df.rows.filter (fun r => bucketOf w r.timestamp == k))) := by
      rw [List.map_map]
      exact List.map_congr_left (fun k _ => by rw [filter_tag_map])
    have hspec_sorted : List.Sorted rowLE
        ((((df.rows.map (fun r => bucketOf w r.timestamp)).eraseDups).insertionSort
            (· ≤ ·)).map (fun k =>
          mkAggRow k (df.cols.filter (fun c => metricNames.contains c))
            (df.rows.filter (fun r => bucketOf w r.timestamp == k)))) :=
      List.Pairwise.map _ (fun _ _ hab => hab)
        (List.sorted_insertionSort (· ≤ ·) _)
    dsimp only []
    congr 1
    rw [hrows]
    exact List.Sorted.insertionSort_eq hspec_sorted

/-- The spec's four-record example: measurements at 10:00:00, 10:01:00,
10:11:00 and 10:21:00 UTC (epoch milliseconds), with `download` values
10, 20, 30 and 40. -/
def dfFour : DFrame :=
  ⟨["timestamp", "download"],
   [⟨36000000, none, none, none, some (.num 10), none, none, none, none, none, none, none⟩,
    ⟨36060000, none, none, none, some (.num 20), none, none, none, none, none, none, none⟩,
    ⟨36660000, none, none, none, some (.num 30), none, none, none, none, none, none, none⟩,
    ⟨37260000, none, none, none, some (.num 40), none, none, none, none, none, none, none⟩]⟩

/-- Witness for C6: with a 10-minute interval the four records produce
exactly the three buckets 10:00, 10:10, 10:20, each holding the mean of
the records that floor into it (15 for the first bucket, 30, 40). -/
theorem c6_witness_four_records_three_buckets :
    (0 < 10) ∧
    aggregate_to_intervals dfFour 10 = .ok (aggregateSpec dfFour 10) ∧
    (aggregateSpec dfFour 10).rows.map (fun r => r.timestamp)
      = [36000000, 36600000, 37200000] ∧
    (aggregateSpec dfFour 10).rows.map (fun r => r.download.bind numVal)
      = [some 15, some 30, some 40] := by
  have hnum : ∀ r ∈ dfFour.rows, ∀ c ∈ metricNames, ∀ v, r.metric c = some v →
      ∃ q, v = JVal.num q := by
    intro r hr c hc v hv
    simp only [dfFour, List.mem_cons, List.not_mem_nil, or_false] at hr
    simp only [metricNames, List.mem_cons, List.not_mem_nil, or_false] at hc
    rcases hr with rfl | rfl | rfl | rfl <;>
      rcases hc with rfl | rfl | rfl | rfl | rfl | rfl | rfl | rfl <;>
      simp only [Row.metric] at hv <;>
      (try cases hv) <;>
      exact ⟨_, rfl⟩
  refine ⟨by decide, c6_aggregator_matches_spec dfFour 10 (by decide) hnum, rfl, ?_⟩
  show [some (((10 : Rat) + (20 + 0)) / ((2 : Nat) : Rat)),
        some (((30 : Rat) + 0) / ((1 : Nat) : Rat)),
        some (((40 : Rat) + 0) / ((1 : Nat) : Rat))]
      = [some 15, some 30, some 40]
  norm_num
